import Mathlib

/-!
# Verification of the mt32-pi MIDI monitor and LCD user interface

A shallow embedding of `src/midimonitor.cpp` and `src/lcd/ui.cpp`
(class `CMIDIMonitor` and class `CUserInterface`), together with proofs
about the envelope/level engine and the display overlay state machine.

Machine integers (`u32`) are modelled as `Nat` with explicit wrap-around
where the source performs unsigned subtraction; `float` quantities are
idealised as exact rationals (`ℚ`).
-/

set_option genSizeOfSpec false
set_option genInjectivity false

namespace MT32Pi

/-- Unsigned 32-bit subtraction `a - b` as performed on `u32` values in the
source (wrap-around modulo `2^32`). -/
def wrapSub32 (a b : Nat) : Nat :=
  (a % 2 ^ 32 + (2 ^ 32 - b % 2 ^ 32)) % 2 ^ 32

theorem wrapSub32_eq_sub {a b : Nat} (hba : b ≤ a) (ha : a < 2 ^ 32) :
    wrapSub32 a b = a - b := by
  have hb : b < 2 ^ 32 := lt_of_le_of_lt hba ha
  unfold wrapSub32
  rw [Nat.mod_eq_of_lt ha, Nat.mod_eq_of_lt hb]
  omega

/-- `Utility::Clamp(v, 0.0f, 1.0f)` from the repository's `utility.h`
(not under `src/`). Modelled from the spec: "clamp to [0,1]". -/
def clamp01 (v : ℚ) : ℚ := max 0 (min v 1)

theorem clamp01_nonneg (v : ℚ) : 0 ≤ clamp01 v := le_max_left 0 _

theorem clamp01_le_one (v : ℚ) : clamp01 v ≤ 1 :=
  max_le (by norm_num) (min_le_right v 1)

theorem clamp01_of_mem {v : ℚ} (h0 : 0 ≤ v) (h1 : v ≤ 1) : clamp01 v = v := by
  unfold clamp01
  rw [min_eq_left h1, max_eq_right h0]

/-- Modelled from the spec: the external tick source runs at a fixed
resolution of `ticksPerMillis` ticks per millisecond; `Utility::TicksToMillis`
(from the repository's missing `utility.h`) converts ticks to whole
milliseconds by integer division. -/
def TicksToMillis (tpm : Nat) (nTicks : Nat) : Nat := nTicks / tpm

/-- Modelled from the spec: `Utility::MillisToTicks` from the repository's
missing `utility.h`, converting milliseconds to ticks. -/
def MillisToTicks (tpm : Nat) (nMillis : Nat) : Nat := nMillis * tpm

/-- Modelled from the spec: the tunable constants of the envelope engine
("Constants (tunable, defaults as in source): `decayReleaseTimeMillis`,
`peakHoldTimeMillis`, `peakFalloffTimeMillis`") declared in the repository's
missing `midimonitor.h`, together with the tick resolution. -/
structure TMonitorConsts where
  ticksPerMillis : Nat
  DecayReleaseTimeMillis : ℚ
  PeakHoldTimeMillis : ℚ
  PeakFalloffTimeMillis : ℚ

/-- `ChannelCount` from the spec's data model: 16 MIDI channels. -/
def ChannelCount : Nat := 16

/-- `NoteCount` from the spec's data model: 128 MIDI notes per channel. -/
def NoteCount : Nat := 128

/-- `TNoteState` of `CMIDIMonitor`: note-on tick, note-off tick, velocity. -/
structure TNoteState where
  nNoteOnTime : Nat
  nNoteOffTime : Nat
  nVelocity : Nat
deriving DecidableEq

/-- `TChannelState` of `CMIDIMonitor`: 128 note states plus CC controller
values. The note array is modelled as a total function on `Nat`; only
indices `< 128` are ever read. -/
structure TChannelState where
  Notes : Nat → TNoteState
  nVolume : Nat
  nPan : Nat
  nExpression : Nat

/-- The state of `CMIDIMonitor`: 16 channel states plus the peak-meter
arrays `m_PeakLevels` / `m_PeakTimes` (modelled as total functions on `Nat`;
only indices `< 16` are ever read). -/
structure CMIDIMonitor where
  m_State : Nat → TChannelState
  m_PeakLevels : Nat → ℚ
  m_PeakTimes : Nat → Nat

/-- `CMIDIMonitor::AllNotesOff` (midimonitor.cpp:124): zero the on-time,
off-time and velocity of every note on every channel. -/
def AllNotesOffState (s : Nat → TChannelState) : Nat → TChannelState :=
  fun c => { s c with Notes := fun _ => ⟨0, 0, 0⟩ }

/-- `CMIDIMonitor::ResetControllers` (midimonitor.cpp:137): set every
channel's expression to 127; unless handling a Reset All Controllers
message, also set volume to 100 and pan to 64. -/
def ResetControllersState (bIsResetAllControllers : Bool)
    (s : Nat → TChannelState) : Nat → TChannelState :=
  fun c =>
    if bIsResetAllControllers then { s c with nExpression := 127 }
    else { s c with nExpression := 127, nVolume := 100, nPan := 64 }

/-- The `CMIDIMonitor` constructor (midimonitor.cpp:27): zero peak levels and
times, then `AllNotesOff(); ResetControllers(false)`. -/
def CMIDIMonitor.init : CMIDIMonitor :=
  { m_State := ResetControllersState false (AllNotesOffState
      (fun _ => { Notes := fun _ => ⟨0, 0, 0⟩, nVolume := 0, nPan := 0, nExpression := 0 }))
    m_PeakLevels := fun _ => 0
    m_PeakTimes := fun _ => 0 }

/-- Helper for the single-note writes in `OnShortMessage`: update note `n`
of channel `c` through `f`. -/
def updateNote (m : CMIDIMonitor) (c n : Nat) (f : TNoteState → TNoteState) :
    CMIDIMonitor :=
  { m with
    m_State := Function.update m.m_State c
      ({ m.m_State c with
         Notes := Function.update (m.m_State c).Notes n (f ((m.m_State c).Notes n)) }) }

/-- `CMIDIMonitor::ProcessCC` (midimonitor.cpp:153). -/
def ProcessCC (m : CMIDIMonitor) (nChannel nCC nValue : Nat) : CMIDIMonitor :=
  if nCC = 0x07 then
    { m with
      m_State := Function.update m.m_State nChannel
        ({ m.m_State nChannel with nVolume := nValue }) }
  else if nCC = 0x0A then
    { m with
      m_State := Function.update m.m_State nChannel
        ({ m.m_State nChannel with nPan := nValue }) }
  else if nCC = 0x0B then
    { m with
      m_State := Function.update m.m_State nChannel
        ({ m.m_State nChannel with nExpression := nValue }) }
  else if nCC = 0x78 ∨ nCC = 0x7B ∨ nCC = 0x7C ∨ nCC = 0x7D ∨ nCC = 0x7E ∨ nCC = 0x7F then
    { m with m_State := AllNotesOffState m.m_State }
  else if nCC = 0x79 then
    { m with m_State := ResetControllersState true m.m_State }
  else m

/-- `CMIDIMonitor::OnShortMessage` (midimonitor.cpp:35). The current clock
tick (`CTimer::GetClockTicks()` in the source) is passed explicitly. -/
def OnShortMessage (m : CMIDIMonitor) (nMessage nTicks : Nat) : CMIDIMonitor :=
  let nStatus := nMessage &&& 0xF0
  let nChannel := nMessage &&& 0x0F
  let nData1 := (nMessage >>> 8) &&& 0xFF
  let nData2 := (nMessage >>> 16) &&& 0xFF
  if nStatus = 0x80 then
    updateNote m nChannel nData1 (fun N => { N with nNoteOffTime := nTicks })
  else if nStatus = 0x90 then
    if nData2 ≠ 0 then
      updateNote m nChannel nData1 (fun _ =>
        { nNoteOnTime := nTicks, nNoteOffTime := 0, nVelocity := nData2 })
    else
      updateNote m nChannel nData1 (fun N => { N with nNoteOffTime := nTicks })
  else if nStatus = 0xB0 then
    ProcessCC m nChannel nData1 nData2
  else if nStatus = 0xFF then
    { m with m_State := ResetControllersState false (AllNotesOffState m.m_State) }
  else m

/-- `EaseFunction` (midimonitor.cpp:79): `-((x-1)*(x-1)) + 1`. -/
def EaseFunction (nInput : ℚ) : ℚ := -((nInput - 1) * (nInput - 1)) + 1

/-- `CMIDIMonitor::ComputeEnvelope` (midimonitor.cpp:195). -/
def ComputeEnvelope (C : TMonitorConsts) (nTicks : Nat) (NoteState : TNoteState) : ℚ :=
  if NoteState.nNoteOnTime = 0 then 0
  else
    let nTicks' := max nTicks NoteState.nNoteOnTime
    if NoteState.nNoteOffTime = 0 then 1
    else
      let nNoteOffDurationMillis : ℚ :=
        min ((TicksToMillis C.ticksPerMillis (wrapSub32 nTicks' NoteState.nNoteOffTime) : ℚ))
          C.DecayReleaseTimeMillis
      EaseFunction (max (1 - nNoteOffDurationMillis / C.DecayReleaseTimeMillis) 0)

/-- `CMIDIMonitor::ComputePercussionEnvelope` (midimonitor.cpp:262). -/
def ComputePercussionEnvelope (C : TMonitorConsts) (nTicks : Nat)
    (NoteState : TNoteState) : ℚ :=
  if NoteState.nNoteOnTime = 0 then 0
  else
    let nTicks' := max nTicks NoteState.nNoteOnTime
    let nNoteOnDurationMillis : ℚ :=
      min ((TicksToMillis C.ticksPerMillis (wrapSub32 nTicks' NoteState.nNoteOnTime) : ℚ))
        C.DecayReleaseTimeMillis
    EaseFunction (max (1 - nNoteOnDurationMillis / C.DecayReleaseTimeMillis) 0)

/-- The per-note envelope dispatch of `GetChannelLevels` (midimonitor.cpp:95):
channel 9 is the percussion channel and uses the percussion envelope. -/
def noteEnvelope (C : TMonitorConsts) (nChannel nTicks : Nat)
    (NoteState : TNoteState) : ℚ :=
  if nChannel = 9 then ComputePercussionEnvelope C nTicks NoteState
  else ComputeEnvelope C nTicks NoteState

/-- The per-note volume contribution of `GetChannelLevels`
(midimonitor.cpp:96). -/
def noteContribution (C : TMonitorConsts) (m : CMIDIMonitor)
    (nChannel nTicks nNote : Nat) : ℚ :=
  let NoteState := (m.m_State nChannel).Notes nNote
  noteEnvelope C nChannel nTicks NoteState * (NoteState.nVelocity / 127)
    * ((m.m_State nChannel).nVolume / 127) * ((m.m_State nChannel).nExpression / 127)

/-- The channel loudness computed by the inner note loop of
`GetChannelLevels` (midimonitor.cpp:90-100): maximum contribution over the
128 notes, starting from 0, clamped to `[0,1]`. -/
def channelLevel (C : TMonitorConsts) (m : CMIDIMonitor)
    (nChannel nTicks : Nat) : ℚ :=
  clamp01 ((List.range NoteCount).foldl
    (fun acc nNote => max acc (noteContribution C m nChannel nTicks nNote)) 0)

/-- The possibly-decayed stored peak of `GetChannelLevels`
(midimonitor.cpp:102-110): after the hold time the stored peak falls
linearly and is clamped to `[0,1]`. -/
def decayedPeak (C : TMonitorConsts) (m : CMIDIMonitor)
    (nChannel nTicks : Nat) : ℚ :=
  let nPeakUpdatedMillis : ℚ :=
    (TicksToMillis C.ticksPerMillis (wrapSub32 nTicks (m.m_PeakTimes nChannel)) : ℚ)
  if C.PeakHoldTimeMillis ≤ nPeakUpdatedMillis then
    clamp01 (m.m_PeakLevels nChannel -
      max (nPeakUpdatedMillis - C.PeakHoldTimeMillis) 0 / C.PeakFalloffTimeMillis)
  else m.m_PeakLevels nChannel

/-- The peak value written to `pOutPeaks` for one channel
(midimonitor.cpp:112-120): the decayed peak, snapped up to the current
loudness when the loudness meets or exceeds it. -/
def outPeak (C : TMonitorConsts) (m : CMIDIMonitor) (nChannel nTicks : Nat) : ℚ :=
  if decayedPeak C m nChannel nTicks ≤ channelLevel C m nChannel nTicks then
    channelLevel C m nChannel nTicks
  else decayedPeak C m nChannel nTicks

/-- The stored peak level after one `GetChannelLevels` query
(midimonitor.cpp:112-117): `m_PeakLevels` is rewritten only when the
loudness snaps the peak up. -/
def newPeakLevel (C : TMonitorConsts) (m : CMIDIMonitor) (nChannel nTicks : Nat) : ℚ :=
  if decayedPeak C m nChannel nTicks ≤ channelLevel C m nChannel nTicks then
    channelLevel C m nChannel nTicks
  else m.m_PeakLevels nChannel

/-- The stored peak time after one `GetChannelLevels` query
(midimonitor.cpp:112-117). -/
def newPeakTime (C : TMonitorConsts) (m : CMIDIMonitor) (nChannel nTicks : Nat) : Nat :=
  if decayedPeak C m nChannel nTicks ≤ channelLevel C m nChannel nTicks then nTicks
  else m.m_PeakTimes nChannel

/-- The result of `CMIDIMonitor::GetChannelLevels` (midimonitor.cpp:84):
the 16 loudness values written to `pOutLevels`, the 16 peak values written
to `pOutPeaks`, and the updated monitor (the query mutates
`m_PeakLevels` / `m_PeakTimes`). -/
structure TLevelsResult where
  levels : List ℚ
  peaks : List ℚ
  monitor : CMIDIMonitor

/-- `CMIDIMonitor::GetChannelLevels` (midimonitor.cpp:84). Each loop
iteration touches only channel `nChannel`'s peak state, so the loop is the
per-channel computation mapped over channels 0..15. -/
def GetChannelLevels (C : TMonitorConsts) (m : CMIDIMonitor) (nTicks : Nat) :
    TLevelsResult :=
  { levels := (List.range ChannelCount).map (fun c => channelLevel C m c nTicks)
    peaks := (List.range ChannelCount).map (fun c => outPeak C m c nTicks)
    monitor :=
      { m with
        m_PeakLevels := fun c =>
          if c < ChannelCount then newPeakLevel C m c nTicks else m.m_PeakLevels c
        m_PeakTimes := fun c =>
          if c < ChannelCount then newPeakTime C m c nTicks else m.m_PeakTimes c } }

/-! ## The overlay state machine (`CUserInterface`, src/lcd/ui.cpp) -/

/-- `CUserInterface::TState` (include/lcd/ui.h:92). -/
inductive TState where
  | None
  | DisplayingMessage
  | DisplayingSpinnerMessage
  | DisplayingImage
  | EnteringPowerSavingMode
  | InPowerSavingMode
deriving DecidableEq

/-- Modelled from the spec: the image identifiers (`TImage`) come from the
repository's missing `lcd/images.h`; the spec only needs a distinguished
`None` plus arbitrary image ids (`currentImageId`). -/
inductive TImage where
  | None
  | Image (n : Nat)

/-- `SystemMessageTextBufferSize` (include/lcd/ui.h:134): 20 characters
plus the null terminator. -/
def SystemMessageTextBufferSize : Nat := 21

/-- `SystemMessageDisplayTimeMillis` (include/lcd/ui.h:140). -/
def SystemMessageDisplayTimeMillis : Nat := 3000

/-- `SystemMessageSpinnerTimeMillis` (include/lcd/ui.h:141). -/
def SystemMessageSpinnerTimeMillis : Nat := 32

/-- `SpinnerChars` (ui.cpp:32), as ASCII codes. -/
def SpinnerChars : List Nat :=
  [95, 95, 95, 45, 39, 39, 94, 94, 96, 96, 45, 95, 95, 95]

/-- The state of `CUserInterface` (include/lcd/ui.h:148-152). The text
buffer is a byte array of length `SystemMessageTextBufferSize`. -/
structure CUserInterface where
  m_State : TState
  m_nStateTime : Nat
  m_nCurrentSpinnerChar : Nat
  m_CurrentImage : TImage
  m_SystemMessageTextBuffer : List Nat

/-- The display, reduced to the one piece of state this core mutates:
the backlight flag driven by `CLCD::SetBacklightEnabled`. -/
structure CLCD where
  backlightEnabled : Bool

/-- The user interface together with the display it drives. -/
structure UISystem where
  ui : CUserInterface
  lcd : CLCD

/-- The `CUserInterface` constructor (ui.cpp:34): state `None`, zeroed
timers and spinner index, no image, zero-filled text buffer. -/
def CUserInterface.init : CUserInterface :=
  { m_State := TState.None
    m_nStateTime := 0
    m_nCurrentSpinnerChar := 0
    m_CurrentImage := TImage.None
    m_SystemMessageTextBuffer := List.replicate SystemMessageTextBufferSize 0 }

/-- `snprintf(buf, sizeof(buf), s)` on the message buffer: write at most
`SystemMessageTextBufferSize - 1` characters of `s` followed by the null
terminator; bytes past the terminator keep their previous values. -/
def writeString (buf s : List Nat) : List Nat :=
  let t := s.take (SystemMessageTextBufferSize - 1) ++ [0]
  t ++ buf.drop t.length

/-- The `%-*.*s` conversion of ui.cpp:88: `s` truncated to `len` characters
and left-justified to width `len` with spaces. -/
def padTruncate (len : Nat) (s : List Nat) : List Nat :=
  s.take len ++ List.replicate (len - s.length) 32

/-- `CUserInterface::ShowSystemMessage` (ui.cpp:81). The current clock tick
(`CTimer::GetClockTicks()` in the source) is passed explicitly; the message
is the list of its character codes. -/
def ShowSystemMessage (ui : CUserInterface) (pMessage : List Nat)
    (bSpinner : Bool) (nTicks : Nat) : CUserInterface :=
  if bSpinner then
    { ui with
      m_SystemMessageTextBuffer := writeString ui.m_SystemMessageTextBuffer
        (padTruncate (SystemMessageTextBufferSize - 3) pMessage ++
          [32, SpinnerChars.headD 0])
      m_State := TState.DisplayingSpinnerMessage
      m_nCurrentSpinnerChar := 0
      m_nStateTime := nTicks }
  else
    { ui with
      m_SystemMessageTextBuffer := writeString ui.m_SystemMessageTextBuffer pMessage
      m_State := TState.DisplayingMessage
      m_nStateTime := nTicks }

/-- `CUserInterface::DisplayImage` (ui.cpp:101). -/
def DisplayImage (ui : CUserInterface) (Image : TImage) (nTicks : Nat) :
    CUserInterface :=
  { ui with
    m_CurrentImage := Image
    m_State := TState.DisplayingImage
    m_nStateTime := nTicks }

/-- `CUserInterface::Update` (ui.cpp:43): the mutually exclusive `else if`
timeout chain, evaluated against the elapsed ticks since the last state
change. `DrawSystemState` only draws and is not modelled; the one display
side effect, turning the backlight off on the power-saving transition, is. -/
def Update (tpm : Nat) (s : UISystem) (nTicks : Nat) : UISystem :=
  let nDeltaTicks := wrapSub32 nTicks s.ui.m_nStateTime
  if s.ui.m_State = TState.DisplayingMessage ∧
      MillisToTicks tpm SystemMessageDisplayTimeMillis ≤ nDeltaTicks then
    { s with ui := { s.ui with m_State := TState.None, m_nStateTime := nTicks } }
  else if s.ui.m_State = TState.DisplayingSpinnerMessage ∧
      MillisToTicks tpm SystemMessageSpinnerTimeMillis ≤ nDeltaTicks then
    { s with ui :=
      { s.ui with
        m_nCurrentSpinnerChar := (s.ui.m_nCurrentSpinnerChar + 1) % SpinnerChars.length
        m_SystemMessageTextBuffer := s.ui.m_SystemMessageTextBuffer.set
          (SystemMessageTextBufferSize - 2)
          (SpinnerChars.getD ((s.ui.m_nCurrentSpinnerChar + 1) % SpinnerChars.length) 0)
        m_nStateTime := nTicks } }
  else if s.ui.m_State = TState.DisplayingImage ∧
      MillisToTicks tpm SystemMessageDisplayTimeMillis ≤ nDeltaTicks then
    { s with ui := { s.ui with m_State := TState.None, m_nStateTime := nTicks } }
  else if s.ui.m_State = TState.EnteringPowerSavingMode ∧
      MillisToTicks tpm SystemMessageDisplayTimeMillis ≤ nDeltaTicks then
    { ui := { s.ui with m_State := TState.InPowerSavingMode, m_nStateTime := nTicks }
      lcd := { backlightEnabled := false } }
  else s

/-- `ShowSystemMessage` viewed at the level of the UI-plus-display system:
the member function has no access to the display, so the `CLCD` component is
untouched by construction. -/
def SystemShowMessage (s : UISystem) (pMessage : List Nat) (bSpinner : Bool)
    (nTicks : Nat) : UISystem :=
  { s with ui := ShowSystemMessage s.ui pMessage bSpinner nTicks }

/-- `DisplayImage` viewed at the level of the UI-plus-display system. -/
def SystemDisplayImage (s : UISystem) (Image : TImage) (nTicks : Nat) : UISystem :=
  { s with ui := DisplayImage s.ui Image nTicks }

/-- Concrete engine constants used to instantiate parametric theorems:
a 1 MHz tick source and representative millisecond defaults. -/
def exampleConsts : TMonitorConsts :=
  { ticksPerMillis := 1000
    DecayReleaseTimeMillis := ((1000 : Nat) : ℚ)
    PeakHoldTimeMillis := ((2000 : Nat) : ℚ)
    PeakFalloffTimeMillis := ((3000 : Nat) : ℚ) }

/-! ## Helper lemmas -/

theorem getD_map_range (f : Nat → ℚ) {c n : Nat} (hc : c < n) :
    (((List.range n).map f).getD c 0) = f c := by
  rw [List.getD_eq_getElem?_getD, List.getElem?_map, List.getElem?_range hc]
  rfl

theorem foldl_max_of_le (f : Nat → ℚ) (l : List Nat) :
    ∀ a : ℚ, (∀ x ∈ l, f x ≤ a) → l.foldl (fun acc x => max acc (f x)) a = a := by
  induction l with
  | nil => intro a _; rfl
  | cons x xs ih =>
    intro a h
    rw [List.foldl_cons, max_eq_left (h x (List.mem_cons_self x xs))]
    exact ih a (fun y hy => h y (List.mem_cons_of_mem x hy))

theorem foldl_max_single (f : Nat → ℚ) (k : Nat) (v : ℚ) (hv : 0 ≤ v) (l : List Nat) :
    k ∈ l → (∀ x ∈ l, f x = if x = k then v else 0) →
      l.foldl (fun acc x => max acc (f x)) 0 = v := by
  induction l with
  | nil => intro hk _; exact absurd hk (List.not_mem_nil k)
  | cons x xs ih =>
    intro hk h
    rcases eq_or_ne x k with rfl | hne
    · have hx : f x = v := by rw [h x (List.mem_cons_self x xs), if_pos rfl]
      rw [List.foldl_cons, hx, max_eq_right hv]
      refine foldl_max_of_le f xs v (fun y hy => ?_)
      rw [h y (List.mem_cons_of_mem x hy)]
      split
      · exact le_refl v
      · exact hv
    · have hx : f x = 0 := by rw [h x (List.mem_cons_self x xs), if_neg hne]
      have hk' : k ∈ xs := by
        cases List.mem_cons.mp hk with
        | inl h' => exact absurd h'.symm hne
        | inr h' => exact h'
      rw [List.foldl_cons, hx, max_self]
      exact ih hk' (fun y hy => h y (List.mem_cons_of_mem x hy))

theorem land240_mod256 (a : Nat) : a &&& 240 = a % 256 &&& 240 := by
  apply Nat.eq_of_testBit_eq
  intro i
  rw [Nat.testBit_land, Nat.testBit_land]
  by_cases h : i < 8
  · rw [show (256 : Nat) = 2 ^ 8 from rfl, Nat.testBit_mod_two_pow]
    simp [h]
  · have h240 : Nat.testBit 240 i = false := by
      apply Nat.testBit_eq_false_of_lt
      calc 240 < 2 ^ 8 := by norm_num
        _ ≤ 2 ^ i := Nat.pow_le_pow_right (by norm_num) (by omega)
    simp [h240]

theorem init_mState (c : Nat) :
    CMIDIMonitor.init.m_State c =
      { Notes := fun _ => ⟨0, 0, 0⟩, nVolume := 100, nPan := 64, nExpression := 127 } := rfl

theorem noteContribution_of_onTime_zero (C : TMonitorConsts) (m : CMIDIMonitor)
    (ch q n : Nat) (h : ((m.m_State ch).Notes n).nNoteOnTime = 0) :
    noteContribution C m ch q n = 0 := by
  unfold noteContribution noteEnvelope ComputeEnvelope ComputePercussionEnvelope
  split <;> simp [h]

/-! ## Claims -/

/-- C1: the spec says a short message with status byte `0xFF` (System Reset)
clears all notes and resets all controllers. The code computes
`nStatus = nMessage & 0xF0`, so `nStatus` can never equal `0xFF` and the
`case 0xFF` branch (commented "System Reset" in the source) is unreachable:
every message whose status byte is `0xFF` leaves the monitor unchanged. -/
theorem systemReset_message_is_ignored (m : CMIDIMonitor) (nMessage nTicks : Nat)
    (h : nMessage % 256 = 0xFF) : OnShortMessage m nMessage nTicks = m := by
  have hS : nMessage &&& 240 = 240 := by
    rw [land240_mod256, h]
    decide
  simp [OnShortMessage, hS]

/-- Witness for `systemReset_message_is_ignored`: the raw System Reset
message `0xFF` itself is ignored. -/
theorem systemReset_message_is_ignored_witness :
    OnShortMessage CMIDIMonitor.init 0xFF 42 = CMIDIMonitor.init :=
  systemReset_message_is_ignored CMIDIMonitor.init 0xFF 42 (by decide)

/-- C7: a Note-On message with velocity 0 is processed exactly like a
Note-Off message for the same note at the same tick: the resulting monitor
states are equal, so in particular every later channel-level query agrees
and no sustain plateau is produced. -/
theorem noteOn_zero_velocity_eq_noteOff (m : CMIDIMonitor) (t : Nat)
    (msgOn msgOff c n v : Nat)
    (hOnS : msgOn &&& 0xF0 = 0x90) (hOnC : msgOn &&& 0x0F = c)
    (hOnD1 : (msgOn >>> 8) &&& 0xFF = n) (hOnD2 : (msgOn >>> 16) &&& 0xFF = 0)
    (hOffS : msgOff &&& 0xF0 = 0x80) (hOffC : msgOff &&& 0x0F = c)
    (hOffD1 : (msgOff >>> 8) &&& 0xFF = n) (hOffD2 : (msgOff >>> 16) &&& 0xFF = v) :
    OnShortMessage m msgOn t = OnShortMessage m msgOff t := by
  simp [OnShortMessage, hOnS, hOnC, hOnD1, hOnD2, hOffS, hOffC, hOffD1, hOffD2]

/-- Witness for `noteOn_zero_velocity_eq_noteOff`: Note-On of note 60 with
velocity 0 equals Note-Off of note 60 (velocity byte 100), both on
channel 0 at tick 7. -/
theorem noteOn_zero_velocity_eq_noteOff_witness :
    OnShortMessage CMIDIMonitor.init (0x90 + 60 * 256) 7 =
      OnShortMessage CMIDIMonitor.init (0x80 + 60 * 256 + 100 * 65536) 7 :=
  noteOn_zero_velocity_eq_noteOff CMIDIMonitor.init 7 (0x90 + 60 * 256)
    (0x80 + 60 * 256 + 100 * 65536) 0 60 100 (by decide) (by decide) (by decide)
    (by decide) (by decide) (by decide) (by decide) (by decide)

/-- C10: from every current overlay state (power-saving states included),
`ShowSystemMessage` unconditionally moves the state machine to
`DisplayingMessage` / `DisplayingSpinnerMessage` and `DisplayImage` moves it
to `DisplayingImage`; both reset the state-entry tick, and neither call
touches the display backlight. -/
theorem show_calls_unconditional_and_backlight_free (s : UISystem)
    (pMessage : List Nat) (bSpinner : Bool) (Image : TImage) (nTicks : Nat) :
    ((SystemShowMessage s pMessage bSpinner nTicks).ui.m_State =
        (if bSpinner then TState.DisplayingSpinnerMessage else TState.DisplayingMessage)) ∧
    (SystemShowMessage s pMessage bSpinner nTicks).ui.m_nStateTime = nTicks ∧
    (SystemShowMessage s pMessage bSpinner nTicks).lcd = s.lcd ∧
    (SystemDisplayImage s Image nTicks).ui.m_State = TState.DisplayingImage ∧
    (SystemDisplayImage s Image nTicks).ui.m_nStateTime = nTicks ∧
    (SystemDisplayImage s Image nTicks).ui.m_CurrentImage = Image ∧
    (SystemDisplayImage s Image nTicks).lcd = s.lcd := by
  cases bSpinner <;>
    simp [SystemShowMessage, SystemDisplayImage, ShowSystemMessage, DisplayImage]

theorem onShortMessage_cc (m : CMIDIMonitor) (msg t : Nat)
    (hS : msg &&& 0xF0 = 0xB0) :
    OnShortMessage m msg t =
      ProcessCC m (msg &&& 0x0F) ((msg >>> 8) &&& 0xFF) ((msg >>> 16) &&& 0xFF) := by
  simp [OnShortMessage, hS]

/-- C2 (as stated, refuted): the claim says an All-Notes-Off-class Control
Change on channel `c` leaves the note state of every other channel
unchanged. In the code `ProcessCC` calls `AllNotesOff()`, which loops over
all 16 channels: a CC 123 on channel 0 also clears the active note on
channel 1. -/
theorem cc_allNotesOff_not_channel_local :
    ((OnShortMessage CMIDIMonitor.init (0x91 + 60 * 256 + 100 * 65536) 1000).m_State 1).Notes 60 =
        ⟨1000, 0, 100⟩ ∧
    ((OnShortMessage (OnShortMessage CMIDIMonitor.init (0x91 + 60 * 256 + 100 * 65536) 1000)
        (0xB0 + 123 * 256) 2000).m_State 1).Notes 60 = ⟨0, 0, 0⟩ := by
  constructor <;> decide

/-- C2 (amended): a Control Change with controller number 120, 123, 124,
125, 126 or 127, on any channel, clears the note on-time, off-time and
velocity of all 128 notes of all 16 channels (not only the message's
channel), and leaves every channel's volume, pan, expression and the peak
arrays unchanged. -/
theorem cc_allNotesOff_clears_all_channels (m : CMIDIMonitor) (msg t c k : Nat)
    (hS : msg &&& 0xF0 = 0xB0) (hC : msg &&& 0x0F = c)
    (hD1 : (msg >>> 8) &&& 0xFF = k)
    (hk : k = 120 ∨ k = 123 ∨ k = 124 ∨ k = 125 ∨ k = 126 ∨ k = 127) :
    (∀ ch n, ((OnShortMessage m msg t).m_State ch).Notes n = ⟨0, 0, 0⟩) ∧
    (∀ ch, ((OnShortMessage m msg t).m_State ch).nVolume = (m.m_State ch).nVolume ∧
      ((OnShortMessage m msg t).m_State ch).nPan = (m.m_State ch).nPan ∧
      ((OnShortMessage m msg t).m_State ch).nExpression = (m.m_State ch).nExpression) ∧
    (OnShortMessage m msg t).m_PeakLevels = m.m_PeakLevels ∧
    (OnShortMessage m msg t).m_PeakTimes = m.m_PeakTimes := by
  have hred : OnShortMessage m msg t = { m with m_State := AllNotesOffState m.m_State } := by
    rw [onShortMessage_cc m msg t hS, hD1]
    rcases hk with rfl | rfl | rfl | rfl | rfl | rfl <;> rfl
  rw [hred]
  simp [AllNotesOffState]

/-- Witness for `cc_allNotesOff_clears_all_channels`: CC 123 on channel 0
clears channel 1's note 60 and keeps channel 1's volume. -/
theorem cc_allNotesOff_clears_all_channels_witness :
    ((OnShortMessage CMIDIMonitor.init (0xB0 + 123 * 256) 3).m_State 1).Notes 60 = ⟨0, 0, 0⟩ ∧
    ((OnShortMessage CMIDIMonitor.init (0xB0 + 123 * 256) 3).m_State 1).nVolume =
      (CMIDIMonitor.init.m_State 1).nVolume :=
  ⟨(cc_allNotesOff_clears_all_channels CMIDIMonitor.init (0xB0 + 123 * 256) 3 0 123
      (by decide) (by decide) (by decide) (by decide)).1 1 60,
   ((cc_allNotesOff_clears_all_channels CMIDIMonitor.init (0xB0 + 123 * 256) 3 0 123
      (by decide) (by decide) (by decide) (by decide)).2.1 1).1⟩

/-- C3 (as stated, refuted): the claim says CC 121 (Reset All Controllers)
on channel `c` leaves the expression of every other channel unchanged. In
the code `ProcessCC` calls `ResetControllers(true)`, which loops over all
16 channels: after setting channel 1's expression to 50, a CC 121 on
channel 0 resets channel 1's expression to 127. -/
theorem cc_resetAllControllers_not_channel_local :
    ((OnShortMessage CMIDIMonitor.init (0xB1 + 11 * 256 + 50 * 65536) 10).m_State 1).nExpression =
        50 ∧
    ((OnShortMessage (OnShortMessage CMIDIMonitor.init (0xB1 + 11 * 256 + 50 * 65536) 10)
        (0xB0 + 121 * 256) 20).m_State 1).nExpression = 127 := by
  constructor <;> decide

/-- C3 (amended): a Control Change with controller 121 (Reset All
Controllers), on any channel, sets the expression of all 16 channels to
127, and leaves every channel's volume, pan and note state, and the peak
arrays, unchanged. -/
theorem cc_resetAllControllers_resets_expression (m : CMIDIMonitor) (msg t c : Nat)
    (hS : msg &&& 0xF0 = 0xB0) (hC : msg &&& 0x0F = c)
    (hD1 : (msg >>> 8) &&& 0xFF = 121) :
    (∀ ch, ((OnShortMessage m msg t).m_State ch).nExpression = 127) ∧
    (∀ ch, ((OnShortMessage m msg t).m_State ch).nVolume = (m.m_State ch).nVolume ∧
      ((OnShortMessage m msg t).m_State ch).nPan = (m.m_State ch).nPan ∧
      ((OnShortMessage m msg t).m_State ch).Notes = (m.m_State ch).Notes) ∧
    (OnShortMessage m msg t).m_PeakLevels = m.m_PeakLevels ∧
    (OnShortMessage m msg t).m_PeakTimes = m.m_PeakTimes := by
  have hred : OnShortMessage m msg t =
      { m with m_State := ResetControllersState true m.m_State } := by
    rw [onShortMessage_cc m msg t hS, hD1]
    rfl
  rw [hred]
  simp [ResetControllersState]

/-- Witness for `cc_resetAllControllers_resets_expression`: CC 121 on
channel 0 resets channel 1's expression to 127 and keeps its volume. -/
theorem cc_resetAllControllers_resets_expression_witness :
    ((OnShortMessage CMIDIMonitor.init (0xB0 + 121 * 256) 3).m_State 1).nExpression = 127 ∧
    ((OnShortMessage CMIDIMonitor.init (0xB0 + 121 * 256) 3).m_State 1).nVolume =
      (CMIDIMonitor.init.m_State 1).nVolume :=
  ⟨(cc_resetAllControllers_resets_expression CMIDIMonitor.init (0xB0 + 121 * 256) 3 0
      (by decide) (by decide) (by decide)).1 1,
   ((cc_resetAllControllers_resets_expression CMIDIMonitor.init (0xB0 + 121 * 256) 3 0
      (by decide) (by decide) (by decide)).2.1 1).1⟩

/-- C4 (as stated, refuted): the claim says a single `Update` whose tick
makes the elapsed time at least `SystemMessageDisplayTimeMillis` returns
the `SpinnerMessage` state to `None`. With a 1000-ticks-per-millisecond
clock, after `ShowSystemMessage("Loading", spinner=true)` at tick 0 an
`Update` at tick 3000000 (exactly the display timeout) leaves the state
machine in `DisplayingSpinnerMessage`: the spinner state has no timeout
branch in `Update`. -/
theorem spinner_state_does_not_time_out :
    (SystemShowMessage ⟨CUserInterface.init, ⟨true⟩⟩
        [76, 111, 97, 100, 105, 110, 103] true 0).ui.m_State =
      TState.DisplayingSpinnerMessage ∧
    (Update 1000 (SystemShowMessage ⟨CUserInterface.init, ⟨true⟩⟩
        [76, 111, 97, 100, 105, 110, 103] true 0) 3000000).ui.m_State ≠
      TState.None := by
  constructor <;> decide

/-- C4 (amended): after `ShowSystemMessage` with `bSpinner = false` puts
the machine in `DisplayingMessage`, any single `Update` whose tick makes
the elapsed time at least `SystemMessageDisplayTimeMillis` returns the
state to `None`; from `DisplayingSpinnerMessage`, however, no `Update`
call ever returns to `None` — the spinner branch only advances the frame
and resets the timer, so the state stays `DisplayingSpinnerMessage`. -/
theorem message_times_out_spinner_persists (tpm : Nat) (s s' : UISystem)
    (pMessage : List Nat) (t q : Nat)
    (ht : t ≤ q) (hq : q < 2 ^ 32)
    (helapsed : MillisToTicks tpm SystemMessageDisplayTimeMillis ≤ q - t)
    (hspin : s'.ui.m_State = TState.DisplayingSpinnerMessage) :
    (Update tpm (SystemShowMessage s pMessage false t) q).ui.m_State = TState.None ∧
    (Update tpm s' q).ui.m_State = TState.DisplayingSpinnerMessage := by
  constructor
  · have hdelta : wrapSub32 q t = q - t := wrapSub32_eq_sub ht hq
    simp [Update, SystemShowMessage, ShowSystemMessage, hdelta, helapsed]
  · by_cases hc :
      MillisToTicks tpm SystemMessageSpinnerTimeMillis ≤ wrapSub32 q s'.ui.m_nStateTime <;>
      simp [Update, hspin, hc]

/-- Witness for `message_times_out_spinner_persists` at a 1 MHz clock:
a plain message shown at tick 0 expires at tick 3000000, while a spinner
message shown at tick 5 is still displayed then. -/
theorem message_times_out_spinner_persists_witness :
    (Update 1000 (SystemShowMessage ⟨CUserInterface.init, ⟨true⟩⟩ [72, 105] false 0)
        3000000).ui.m_State = TState.None ∧
    (Update 1000 (SystemShowMessage ⟨CUserInterface.init, ⟨true⟩⟩ [72, 105] true 5)
        3000000).ui.m_State = TState.DisplayingSpinnerMessage :=
  message_times_out_spinner_persists 1000 ⟨CUserInterface.init, ⟨true⟩⟩
    (SystemShowMessage ⟨CUserInterface.init, ⟨true⟩⟩ [72, 105] true 5) [72, 105] 0 3000000
    (by decide) (by decide) (by decide) (by decide)

theorem monitor_peakLevels_eq (C : TMonitorConsts) (m : CMIDIMonitor) (q c : Nat)
    (hc : c < ChannelCount) :
    (GetChannelLevels C m q).monitor.m_PeakLevels c = newPeakLevel C m c q := by
  show (if c < ChannelCount then newPeakLevel C m c q else m.m_PeakLevels c) = _
  exact if_pos hc

theorem monitor_peakTimes_eq (C : TMonitorConsts) (m : CMIDIMonitor) (q c : Nat)
    (hc : c < ChannelCount) :
    (GetChannelLevels C m q).monitor.m_PeakTimes c = newPeakTime C m c q := by
  show (if c < ChannelCount then newPeakTime C m c q else m.m_PeakTimes c) = _
  exact if_pos hc

theorem channelLevel_nonneg (C : TMonitorConsts) (m : CMIDIMonitor) (c q : Nat) :
    0 ≤ channelLevel C m c q := clamp01_nonneg _

theorem channelLevel_le_one (C : TMonitorConsts) (m : CMIDIMonitor) (c q : Nat) :
    channelLevel C m c q ≤ 1 := clamp01_le_one _

theorem decayedPeak_mem (C : TMonitorConsts) (m : CMIDIMonitor) (c q : Nat)
    (h0 : 0 ≤ m.m_PeakLevels c) (h1 : m.m_PeakLevels c ≤ 1) :
    0 ≤ decayedPeak C m c q ∧ decayedPeak C m c q ≤ 1 := by
  simp only [decayedPeak]
  split
  · exact ⟨clamp01_nonneg _, clamp01_le_one _⟩
  · exact ⟨h0, h1⟩

/-- C6: under the invariant that the stored peak levels lie in `[0,1]`
(which holds initially and is preserved by every query, as the last two
conjuncts show), `GetChannelLevels` writes, for each of the 16 channels, a
loudness value and a peak value in `[0,1]` with peak ≥ loudness. -/
theorem getChannelLevels_bounds (C : TMonitorConsts) (m : CMIDIMonitor) (q : Nat)
    (hInv : ∀ c, c < ChannelCount → 0 ≤ m.m_PeakLevels c ∧ m.m_PeakLevels c ≤ 1)
    (c : Nat) (hc : c < ChannelCount) :
    0 ≤ (GetChannelLevels C m q).levels.getD c 0 ∧
    (GetChannelLevels C m q).levels.getD c 0 ≤ 1 ∧
    0 ≤ (GetChannelLevels C m q).peaks.getD c 0 ∧
    (GetChannelLevels C m q).peaks.getD c 0 ≤ 1 ∧
    (GetChannelLevels C m q).levels.getD c 0 ≤ (GetChannelLevels C m q).peaks.getD c 0 ∧
    0 ≤ (GetChannelLevels C m q).monitor.m_PeakLevels c ∧
    (GetChannelLevels C m q).monitor.m_PeakLevels c ≤ 1 := by
  obtain ⟨hs0, hs1⟩ := hInv c hc
  have hL : (GetChannelLevels C m q).levels.getD c 0 = channelLevel C m c q :=
    getD_map_range _ hc
  have hP : (GetChannelLevels C m q).peaks.getD c 0 = outPeak C m c q :=
    getD_map_range _ hc
  have hM : (GetChannelLevels C m q).monitor.m_PeakLevels c = newPeakLevel C m c q :=
    monitor_peakLevels_eq C m q c hc
  obtain ⟨hd0, hd1⟩ := decayedPeak_mem C m c q hs0 hs1
  rw [hL, hP, hM]
  unfold outPeak newPeakLevel
  split
  · exact ⟨channelLevel_nonneg C m c q, channelLevel_le_one C m c q,
      channelLevel_nonneg C m c q, channelLevel_le_one C m c q, le_refl _,
      channelLevel_nonneg C m c q, channelLevel_le_one C m c q⟩
  · rename_i hlt
    exact ⟨channelLevel_nonneg C m c q, channelLevel_le_one C m c q, hd0, hd1,
      le_of_lt (lt_of_not_le hlt), hs0, hs1⟩

/-- Witness for `getChannelLevels_bounds`: the freshly constructed monitor
queried at tick 0 reports channel 0's loudness and peak within bounds. -/
theorem getChannelLevels_bounds_witness :
    0 ≤ (GetChannelLevels exampleConsts CMIDIMonitor.init 0).levels.getD 0 0 ∧
    (GetChannelLevels exampleConsts CMIDIMonitor.init 0).levels.getD 0 0 ≤ 1 ∧
    0 ≤ (GetChannelLevels exampleConsts CMIDIMonitor.init 0).peaks.getD 0 0 ∧
    (GetChannelLevels exampleConsts CMIDIMonitor.init 0).peaks.getD 0 0 ≤ 1 ∧
    (GetChannelLevels exampleConsts CMIDIMonitor.init 0).levels.getD 0 0 ≤
      (GetChannelLevels exampleConsts CMIDIMonitor.init 0).peaks.getD 0 0 ∧
    0 ≤ (GetChannelLevels exampleConsts CMIDIMonitor.init 0).monitor.m_PeakLevels 0 ∧
    (GetChannelLevels exampleConsts CMIDIMonitor.init 0).monitor.m_PeakLevels 0 ≤ 1 :=
  getChannelLevels_bounds exampleConsts CMIDIMonitor.init 0
    (fun _ _ => ⟨le_refl 0, zero_le_one⟩) 0 (by decide)

theorem decayedPeak_le_outPeak (C : TMonitorConsts) (m : CMIDIMonitor) (c q : Nat) :
    decayedPeak C m c q ≤ outPeak C m c q := by
  unfold outPeak
  split
  · assumption
  · exact le_refl _

/-- C8: while the elapsed milliseconds since the channel's last peak update
stay below `PeakHoldTimeMillis`, the reported peak never decreases across
two successive queries; once the hold time is reached, the stored peak is
reported decayed linearly by `(heldMs - PeakHoldTimeMillis) /
PeakFalloffTimeMillis`, clamped below at 0 (as long as the current loudness
does not snap the peak up). -/
theorem peak_hold_then_linear_decay (C : TMonitorConsts) (m : CMIDIMonitor)
    (c t1 t2 q : Nat) (hc : c < ChannelCount)
    (h0 : 0 ≤ m.m_PeakLevels c) (h1 : m.m_PeakLevels c ≤ 1)
    (hpt1 : m.m_PeakTimes c ≤ t1) (h12 : t1 ≤ t2) (ht2 : t2 < 2 ^ 32)
    (hfall : 0 < C.PeakFalloffTimeMillis) :
    (((TicksToMillis C.ticksPerMillis (t1 - m.m_PeakTimes c) : ℚ) < C.PeakHoldTimeMillis) →
     ((TicksToMillis C.ticksPerMillis (t2 - t1) : ℚ) < C.PeakHoldTimeMillis) →
     ((TicksToMillis C.ticksPerMillis (t2 - m.m_PeakTimes c) : ℚ) < C.PeakHoldTimeMillis) →
     (GetChannelLevels C m t1).peaks.getD c 0 ≤
       (GetChannelLevels C (GetChannelLevels C m t1).monitor t2).peaks.getD c 0) ∧
    (C.PeakHoldTimeMillis ≤
        (TicksToMillis C.ticksPerMillis (wrapSub32 q (m.m_PeakTimes c)) : ℚ) →
     channelLevel C m c q ≤
       max 0 (m.m_PeakLevels c -
         ((TicksToMillis C.ticksPerMillis (wrapSub32 q (m.m_PeakTimes c)) : ℚ) -
           C.PeakHoldTimeMillis) / C.PeakFalloffTimeMillis) →
     (GetChannelLevels C m q).peaks.getD c 0 =
       max 0 (m.m_PeakLevels c -
         ((TicksToMillis C.ticksPerMillis (wrapSub32 q (m.m_PeakTimes c)) : ℚ) -
           C.PeakHoldTimeMillis) / C.PeakFalloffTimeMillis)) := by
  have ht1 : t1 < 2 ^ 32 := lt_of_le_of_lt h12 ht2
  constructor
  · intro hold1 hold2a hold2b
    have hw1 : wrapSub32 t1 (m.m_PeakTimes c) = t1 - m.m_PeakTimes c :=
      wrapSub32_eq_sub hpt1 ht1
    have hdec1 : decayedPeak C m c t1 = m.m_PeakLevels c := by
      simp only [decayedPeak]
      rw [hw1, if_neg (not_le.mpr hold1)]
    have hP1 : (GetChannelLevels C m t1).peaks.getD c 0 = outPeak C m c t1 :=
      getD_map_range _ hc
    have hP2 : (GetChannelLevels C (GetChannelLevels C m t1).monitor t2).peaks.getD c 0 =
        outPeak C (GetChannelLevels C m t1).monitor c t2 :=
      getD_map_range _ hc
    have hm1L : (GetChannelLevels C m t1).monitor.m_PeakLevels c = newPeakLevel C m c t1 :=
      monitor_peakLevels_eq C m t1 c hc
    have hm1T : (GetChannelLevels C m t1).monitor.m_PeakTimes c = newPeakTime C m c t1 :=
      monitor_peakTimes_eq C m t1 c hc
    have hstored1 : (GetChannelLevels C m t1).monitor.m_PeakLevels c = outPeak C m c t1 := by
      rw [hm1L]
      unfold newPeakLevel outPeak
      rw [hdec1]
    have hdec2 : decayedPeak C (GetChannelLevels C m t1).monitor c t2 = outPeak C m c t1 := by
      simp only [decayedPeak]
      rw [hstored1, hm1T]
      unfold newPeakTime
      rw [hdec1]
      split
      · rename_i hsnap
        rw [wrapSub32_eq_sub h12 ht2, if_neg (not_le.mpr hold2a)]
      · rw [wrapSub32_eq_sub (le_trans hpt1 h12) ht2, if_neg (not_le.mpr hold2b)]
    rw [hP1, hP2, ← hdec2]
    exact decayedPeak_le_outPeak C (GetChannelLevels C m t1).monitor c t2
  · intro hheld hlow
    set heldQ : ℚ := (TicksToMillis C.ticksPerMillis (wrapSub32 q (m.m_PeakTimes c)) : ℚ)
      with hheldQ
    have hdec : decayedPeak C m c q =
        max 0 (m.m_PeakLevels c - (heldQ - C.PeakHoldTimeMillis) / C.PeakFalloffTimeMillis) := by
      simp only [decayedPeak]
      rw [← hheldQ, if_pos hheld, max_eq_left (sub_nonneg.mpr hheld)]
      unfold clamp01
      congr 1
      refine min_eq_left ?_
      have hdiv : 0 ≤ (heldQ - C.PeakHoldTimeMillis) / C.PeakFalloffTimeMillis :=
        div_nonneg (sub_nonneg.mpr hheld) (le_of_lt hfall)
      exact le_trans (sub_le_self _ hdiv) h1
    have hPq : (GetChannelLevels C m q).peaks.getD c 0 = outPeak C m c q :=
      getD_map_range _ hc
    rw [hPq]
    unfold outPeak
    rw [hdec]
    split
    · rename_i hsnap
      exact le_antisymm (hdec ▸ hlow) hsnap
    · rfl

/-- Witness for `peak_hold_then_linear_decay`: on the fresh monitor at a
1 MHz clock both queries at tick 0 fall inside the hold window and the
reported peak does not decrease. -/
theorem peak_hold_then_linear_decay_witness :
    (GetChannelLevels exampleConsts CMIDIMonitor.init 0).peaks.getD 0 0 ≤
      (GetChannelLevels exampleConsts
        (GetChannelLevels exampleConsts CMIDIMonitor.init 0).monitor 0).peaks.getD 0 0 :=
  (peak_hold_then_linear_decay exampleConsts CMIDIMonitor.init 0 0 0 0 (by decide)
      (le_refl 0) zero_le_one (by decide) (by decide) (by decide)
      (Nat.cast_pos.mpr (by decide))).1
    (Nat.cast_lt.mpr (by decide)) (Nat.cast_lt.mpr (by decide))
    (Nat.cast_lt.mpr (by decide))

/-- C9: for a note on the percussion channel (9) with Note-On at tick
`t ≠ 0` and no Note-Off, the envelope used by the level query decays from
the Note-On moment as
`ease(max(1 - min(millis(q - t), decayRelease)/decayRelease, 0))`, and is
0 for every query at or beyond `DecayReleaseTimeMillis` after onset. -/
theorem percussion_envelope_decays_from_onset (C : TMonitorConsts) (m : CMIDIMonitor)
    (n q t : Nat) (hD : 0 < C.DecayReleaseTimeMillis)
    (hOn : ((m.m_State 9).Notes n).nNoteOnTime = t) (ht0 : t ≠ 0)
    (hOff : ((m.m_State 9).Notes n).nNoteOffTime = 0)
    (htq : t ≤ q) (hq : q < 2 ^ 32) :
    noteEnvelope C 9 q ((m.m_State 9).Notes n) =
      EaseFunction (max (1 - min ((TicksToMillis C.ticksPerMillis (q - t) : ℚ))
        C.DecayReleaseTimeMillis / C.DecayReleaseTimeMillis) 0) ∧
    (C.DecayReleaseTimeMillis ≤ (TicksToMillis C.ticksPerMillis (q - t) : ℚ) →
      noteEnvelope C 9 q ((m.m_State 9).Notes n) = 0) := by
  have hmain : noteEnvelope C 9 q ((m.m_State 9).Notes n) =
      EaseFunction (max (1 - min ((TicksToMillis C.ticksPerMillis (q - t) : ℚ))
        C.DecayReleaseTimeMillis / C.DecayReleaseTimeMillis) 0) := by
    have h9 : noteEnvelope C 9 q ((m.m_State 9).Notes n) =
        ComputePercussionEnvelope C q ((m.m_State 9).Notes n) := rfl
    rw [h9]
    simp only [ComputePercussionEnvelope, hOn]
    rw [if_neg ht0, max_eq_left htq, wrapSub32_eq_sub htq hq]
  refine ⟨hmain, fun hge => ?_⟩
  rw [hmain, min_eq_right hge, div_self (ne_of_gt hD)]
  norm_num [EaseFunction]

/-- Witness for `percussion_envelope_decays_from_onset`: a Note-On of note
60 velocity 100 on channel 9 at tick 5, queried at tick 10. -/
theorem percussion_envelope_decays_from_onset_witness :
    noteEnvelope exampleConsts 9 10
      (((OnShortMessage CMIDIMonitor.init (0x99 + 60 * 256 + 100 * 65536) 5).m_State 9).Notes 60) =
      EaseFunction (max (1 - min ((TicksToMillis exampleConsts.ticksPerMillis (10 - 5) : ℚ))
        exampleConsts.DecayReleaseTimeMillis / exampleConsts.DecayReleaseTimeMillis) 0) :=
  (percussion_envelope_decays_from_onset exampleConsts
      (OnShortMessage CMIDIMonitor.init (0x99 + 60 * 256 + 100 * 65536) 5) 60 10 5
      (Nat.cast_pos.mpr (by decide)) (by decide) (by decide) (by decide) (by decide)
      (by decide)).1

/-- C5 (as stated, refuted): the claim's scenario sends a Note-On with
velocity 127 on channel 0 of the fresh engine at tick 0 and expects a
level ≈ 1.0 at tick 0. Because tick 0 is the engine's "inactive" sentinel
(`nNoteOnTime == 0` means the note never sounded), the query reports
level 0, not ≈ 1.0 — and even at a nonzero tick the default volume 100
scales the level to 100/127 ≈ 0.79, not 1.0. -/
theorem noteOn_at_tick_zero_reports_zero_level :
    (GetChannelLevels exampleConsts
        (OnShortMessage CMIDIMonitor.init (0x90 + 60 * 256 + 127 * 65536) 0) 0).levels.getD 0 0 =
      0 ∧
    ¬ ((9 : ℚ) / 10 ≤ (GetChannelLevels exampleConsts
        (OnShortMessage CMIDIMonitor.init (0x90 + 60 * 256 + 127 * 65536) 0) 0).levels.getD 0 0) := by
  have hm : OnShortMessage CMIDIMonitor.init (0x90 + 60 * 256 + 127 * 65536) 0 =
      updateNote CMIDIMonitor.init 0 60 (fun _ => ⟨0, 0, 127⟩) := rfl
  have hN : ((updateNote CMIDIMonitor.init 0 60 (fun _ => ⟨0, 0, 127⟩)).m_State 0).Notes =
      Function.update (CMIDIMonitor.init.m_State 0).Notes 60 ⟨0, 0, 127⟩ := rfl
  have hnote : ∀ x : Nat,
      (((updateNote CMIDIMonitor.init 0 60 (fun _ => ⟨0, 0, 127⟩)).m_State 0).Notes x).nNoteOnTime
        = 0 := by
    intro x
    rw [hN]
    by_cases hx : x = 60
    · subst hx
      rw [Function.update_same]
    · rw [Function.update_noteq hx]
      rfl
  have hlev : channelLevel exampleConsts
      (OnShortMessage CMIDIMonitor.init (0x90 + 60 * 256 + 127 * 65536) 0) 0 0 = 0 := by
    rw [hm]
    unfold channelLevel
    rw [foldl_max_of_le _ _ _ (fun x _ => le_of_eq
      (noteContribution_of_onTime_zero exampleConsts _ 0 0 x (hnote x)))]
    exact clamp01_of_mem (le_refl 0) zero_le_one
  have hgd : (GetChannelLevels exampleConsts
      (OnShortMessage CMIDIMonitor.init (0x90 + 60 * 256 + 127 * 65536) 0) 0).levels.getD 0 0 =
      channelLevel exampleConsts
        (OnShortMessage CMIDIMonitor.init (0x90 + 60 * 256 + 127 * 65536) 0) 0 0 :=
    getD_map_range _ (by decide)
  rw [hgd, hlev]
  norm_num

/-- C5 (amended): the claim's scenario holds once shifted off the tick-0
sentinel and scaled by the default volume: on the fresh engine, Note-On of
note 60 with velocity 127 on channel 0 at tick 1 makes the query at tick 1
report level `100/127` (= velocity/127 · volume/127 · expression/127 with
defaults 127/100/127), and after a Note-Off at tick 1 the query at the
tick equivalent of `DecayReleaseTimeMillis/2` later reports
`ease(1/2) · 100/127 = 3/4 · 100/127`. -/
theorem level_meter_scenario (C : TMonitorConsts) (d : Nat)
    (htpm : 0 < C.ticksPerMillis) (hd : 0 < d)
    (hD : C.DecayReleaseTimeMillis = ((2 * d : Nat) : ℚ))
    (hq : 1 + d * C.ticksPerMillis < 2 ^ 32) :
    (GetChannelLevels C
        (OnShortMessage CMIDIMonitor.init (0x90 + 60 * 256 + 127 * 65536) 1) 1).levels.getD 0 0 =
      100 / 127 ∧
    (GetChannelLevels C
        (OnShortMessage
          (GetChannelLevels C
            (OnShortMessage CMIDIMonitor.init (0x90 + 60 * 256 + 127 * 65536) 1) 1).monitor
          (0x80 + 60 * 256) 1)
        (1 + d * C.ticksPerMillis)).levels.getD 0 0 = 3 / 4 * (100 / 127) := by
  have hbounds : ((0:ℚ) ≤ 100 / 127 ∧ (100:ℚ) / 127 ≤ 1) ∧
      ((0:ℚ) ≤ 3 / 4 * (100 / 127) ∧ (3:ℚ) / 4 * (100 / 127) ≤ 1) := by norm_num
  have hmem : (60 : Nat) ∈ List.range NoteCount := List.mem_range.mpr (by decide)
  have hm1 : OnShortMessage CMIDIMonitor.init (0x90 + 60 * 256 + 127 * 65536) 1 =
      updateNote CMIDIMonitor.init 0 60 (fun _ => ⟨1, 0, 127⟩) := rfl
  set m1 := OnShortMessage CMIDIMonitor.init (0x90 + 60 * 256 + 127 * 65536) 1 with hm1def
  have hN1 : (m1.m_State 0).Notes =
      Function.update (CMIDIMonitor.init.m_State 0).Notes 60 ⟨1, 0, 127⟩ := rfl
  have h60 : (m1.m_State 0).Notes 60 = ⟨1, 0, 127⟩ := by
    rw [hN1, Function.update_same]
  have hother : ∀ x : Nat, x ≠ 60 → (m1.m_State 0).Notes x = ⟨0, 0, 0⟩ := by
    intro x hx
    rw [hN1, Function.update_noteq hx]
    rfl
  have hc60 : noteContribution C m1 0 1 60 = 100 / 127 := by
    have hred : noteContribution C m1 0 1 60 =
        1 * (((127 : Nat) : ℚ) / 127) * (((100 : Nat) : ℚ) / 127) * (((127 : Nat) : ℚ) / 127) :=
      rfl
    rw [hred]
    norm_num
  have hfold1 : (List.range NoteCount).foldl
      (fun acc n => max acc (noteContribution C m1 0 1 n)) 0 = 100 / 127 := by
    refine foldl_max_single _ 60 (100 / 127) hbounds.1.1 _ hmem ?_
    intro x _
    by_cases hx : x = 60
    · subst hx; rw [if_pos rfl]; exact hc60
    · rw [if_neg hx]
      exact noteContribution_of_onTime_zero C m1 0 1 x (by rw [hother x hx])
  have hlev1 : channelLevel C m1 0 1 = 100 / 127 := by
    unfold channelLevel
    rw [hfold1]
    exact clamp01_of_mem hbounds.1.1 hbounds.1.2
  have hpart1 : (GetChannelLevels C m1 1).levels.getD 0 0 = 100 / 127 := by
    have hlv : (GetChannelLevels C m1 1).levels.getD 0 0 = channelLevel C m1 0 1 :=
      getD_map_range _ (by decide)
    exact hlv.trans hlev1
  refine ⟨hpart1, ?_⟩
  -- second query: Note-Off at tick 1, query half the decay time later
  set m2 := OnShortMessage (GetChannelLevels C m1 1).monitor (0x80 + 60 * 256) 1 with hm2def
  have hN2 : (m2.m_State 0).Notes =
      Function.update (m1.m_State 0).Notes 60
        ({ (m1.m_State 0).Notes 60 with nNoteOffTime := 1 }) := rfl
  have h60b : (m2.m_State 0).Notes 60 = ⟨1, 1, 127⟩ := by
    rw [hN2, Function.update_same, h60]
  have hotherb : ∀ x : Nat, x ≠ 60 → (m2.m_State 0).Notes x = ⟨0, 0, 0⟩ := by
    intro x hx
    rw [hN2, Function.update_noteq hx]
    exact hother x hx
  have hvolb : (m2.m_State 0).nVolume = 100 := rfl
  have hexprb : (m2.m_State 0).nExpression = 127 := rfl
  have hone : (1 : Nat) ≤ 1 + d * C.ticksPerMillis := Nat.le_add_right 1 _
  have hmax : max (1 + d * C.ticksPerMillis) 1 = 1 + d * C.ticksPerMillis := max_eq_left hone
  have hwrap : wrapSub32 (1 + d * C.ticksPerMillis) 1 = d * C.ticksPerMillis := by
    rw [wrapSub32_eq_sub hone hq]
    omega
  have hms : TicksToMillis C.ticksPerMillis (d * C.ticksPerMillis) = d := by
    unfold TicksToMillis
    exact Nat.mul_div_cancel d htpm
  have hmin : min ((d : Nat) : ℚ) C.DecayReleaseTimeMillis = ((d : Nat) : ℚ) := by
    rw [hD]
    exact min_eq_left (Nat.cast_le.mpr (by omega))
  have hd0 : ((d : Nat) : ℚ) ≠ 0 := Nat.cast_ne_zero.mpr (Nat.pos_iff_ne_zero.mp hd)
  have hhalf : ((d : Nat) : ℚ) / C.DecayReleaseTimeMillis = 1 / 2 := by
    rw [hD]
    push_cast
    rw [mul_comm]
    rw [div_mul_eq_div_div]
    rw [div_self hd0]
  have henv : ComputeEnvelope C (1 + d * C.ticksPerMillis) (⟨1, 1, 127⟩ : TNoteState) =
      3 / 4 := by
    simp only [ComputeEnvelope]
    rw [if_neg (by decide)]
    rw [if_neg (by decide)]
    rw [hmax, hwrap, hms, hmin, hhalf]
    norm_num [EaseFunction]
  have hc60b : noteContribution C m2 0 (1 + d * C.ticksPerMillis) 60 = 3 / 4 * (100 / 127) := by
    have hred : noteContribution C m2 0 (1 + d * C.ticksPerMillis) 60 =
        ComputeEnvelope C (1 + d * C.ticksPerMillis) ((m2.m_State 0).Notes 60) *
          ((((m2.m_State 0).Notes 60).nVelocity : ℚ) / 127) *
          (((m2.m_State 0).nVolume : ℚ) / 127) * (((m2.m_State 0).nExpression : ℚ) / 127) :=
      rfl
    rw [hred, h60b, henv, hvolb, hexprb]
    norm_num
  have hfold2 : (List.range NoteCount).foldl
      (fun acc n => max acc (noteContribution C m2 0 (1 + d * C.ticksPerMillis) n)) 0 =
      3 / 4 * (100 / 127) := by
    refine foldl_max_single _ 60 (3 / 4 * (100 / 127)) hbounds.2.1 _ hmem ?_
    intro x _
    by_cases hx : x = 60
    · subst hx; rw [if_pos rfl]; exact hc60b
    · rw [if_neg hx]
      exact noteContribution_of_onTime_zero C m2 0 (1 + d * C.ticksPerMillis) x
        (by rw [hotherb x hx])
  have hlev2 : channelLevel C m2 0 (1 + d * C.ticksPerMillis) = 3 / 4 * (100 / 127) := by
    unfold channelLevel
    rw [hfold2]
    exact clamp01_of_mem hbounds.2.1 hbounds.2.2
  have hlv2 : (GetChannelLevels C m2 (1 + d * C.ticksPerMillis)).levels.getD 0 0 =
      channelLevel C m2 0 (1 + d * C.ticksPerMillis) :=
    getD_map_range _ (by decide)
  exact hlv2.trans hlev2

/-- Witness for `level_meter_scenario`: a 1 MHz clock with
`DecayReleaseTimeMillis = 1000` and half-decay `d = 500` milliseconds. -/
theorem level_meter_scenario_witness :
    (GetChannelLevels exampleConsts
        (OnShortMessage CMIDIMonitor.init (0x90 + 60 * 256 + 127 * 65536) 1) 1).levels.getD 0 0 =
      100 / 127 ∧
    (GetChannelLevels exampleConsts
        (OnShortMessage
          (GetChannelLevels exampleConsts
            (OnShortMessage CMIDIMonitor.init (0x90 + 60 * 256 + 127 * 65536) 1) 1).monitor
          (0x80 + 60 * 256) 1)
        (1 + 500 * exampleConsts.ticksPerMillis)).levels.getD 0 0 = 3 / 4 * (100 / 127) :=
  level_meter_scenario exampleConsts 500 (by decide) (by decide) rfl (by decide)

end MT32Pi
